import Mathlib

/-!
Verification of the 3D Swin Transformer backbone (`dover/models/swin_backbone.py`).

Tensors are shallowly embedded as index functions: a 5-axis feature volume of
shape `(B, D, H, W, C)` becomes a function `ℕ → ℕ → ℕ → ℕ → ℕ → ℤ` from
(batch, depth, height, width, channel) indices to entries, and the reshape /
permute / view operations of the source become the corresponding index
arithmetic (row-major, mirroring PyTorch's contiguous-view semantics).
-/

/-- `window_partition(x, window_size)` from the source: given a volume of shape
`(B, D, H, W, C)` with `D, H, W` divisible by the window dims `(wd, wh, ww)`,
produce windows of shape `(B*nW, wd*wh*ww, C)`.  The source performs
`view(B, D//wd, wd, H//wh, wh, W//ww, ww, C)`, `permute(0,1,3,5,2,4,6,7)`,
`view(-1, wd*wh*ww, C)`; in row-major index arithmetic the flat window index
`n` decomposes as `((b*(D/wd) + bd)*(H/wh) + bh)*(W/ww) + bw` and the in-window
index `t` as `(id*wh + ih)*ww + iw`. -/
def window_partition (x : ℕ → ℕ → ℕ → ℕ → ℕ → ℤ) (D H W wd wh ww : ℕ) :
    ℕ → ℕ → ℕ → ℤ :=
  fun n t c =>
    x (n / (W / ww) / (H / wh) / (D / wd))
      ((n / (W / ww) / (H / wh) % (D / wd)) * wd + t / ww / wh)
      ((n / (W / ww) % (H / wh)) * wh + t / ww % wh)
      ((n % (W / ww)) * ww + t % ww)
      c

/-- `window_reverse(windows, window_size, B, D, H, W)` from the source: the
inverse regrouping, `view(B, D//wd, H//wh, W//ww, wd, wh, ww, -1)` then
`permute(0,1,4,2,5,3,6,7)` then `view(B, D, H, W, -1)`. -/
def window_reverse (windows : ℕ → ℕ → ℕ → ℤ) (D H W wd wh ww : ℕ) :
    ℕ → ℕ → ℕ → ℕ → ℕ → ℤ :=
  fun b d h w c =>
    windows (((b * (D / wd) + d / wd) * (H / wh) + h / wh) * (W / ww) + w / ww)
            (((d % wd) * wh + h % wh) * ww + w % ww)
            c

/-- Mixed-radix decoding: the quotient digit of `q * C + r`. -/
theorem mixed_div (q r C : ℕ) (h : r < C) : (q * C + r) / C = q := by
  have hC : 0 < C := lt_of_le_of_lt (Nat.zero_le r) h
  rw [mul_comm, Nat.mul_add_div hC, Nat.div_eq_of_lt h, add_zero]

/-- Mixed-radix decoding: the remainder digit of `q * C + r`. -/
theorem mixed_mod (q r C : ℕ) (h : r < C) : (q * C + r) % C = r := by
  rw [mul_comm, Nat.mul_add_mod]
  exact Nat.mod_eq_of_lt h

/-- C1: for every 5-axis volume `x` of shape `(B, D, H, W, C)` whose spatial
axes `D, H, W` are exactly divisible by the window dims `(wd, wh, ww)`,
`window_reverse (window_partition x w) w B D H W` agrees with `x` at every
in-range index — the partition/reverse round trip is exact. -/
theorem partition_reverse_roundtrip
    (x : ℕ → ℕ → ℕ → ℕ → ℕ → ℤ) (D H W wd wh ww : ℕ)
    (hdD : wd ∣ D) (hhH : wh ∣ H) (hwW : ww ∣ W)
    (hwd : 0 < wd) (hwh : 0 < wh) (hww : 0 < ww)
    (b d h w c : ℕ) (hd : d < D) (hh : h < H) (hw : w < W) :
    window_reverse (window_partition x D H W wd wh ww) D H W wd wh ww b d h w c
      = x b d h w c := by
  have h1 : w / ww < W / ww := Nat.div_lt_div_of_lt_of_dvd hwW hw
  have h2 : h / wh < H / wh := Nat.div_lt_div_of_lt_of_dvd hhH hh
  have h3 : d / wd < D / wd := Nat.div_lt_div_of_lt_of_dvd hdD hd
  have h4 : w % ww < ww := Nat.mod_lt _ hww
  have h5 : h % wh < wh := Nat.mod_lt _ hwh
  have e1 : d / wd * wd + d % wd = d := by rw [mul_comm]; exact Nat.div_add_mod d wd
  have e2 : h / wh * wh + h % wh = h := by rw [mul_comm]; exact Nat.div_add_mod h wh
  have e3 : w / ww * ww + w % ww = w := by rw [mul_comm]; exact Nat.div_add_mod w ww
  simp only [window_reverse, window_partition]
  rw [mixed_mod _ _ _ h1, mixed_div _ _ _ h1, mixed_mod _ _ _ h2, mixed_div _ _ _ h2,
      mixed_mod _ _ _ h3, mixed_div _ _ _ h3,
      mixed_mod _ _ _ h4, mixed_div _ _ _ h4, mixed_mod _ _ _ h5, mixed_div _ _ _ h5,
      e1, e2, e3]

/-- A concrete sample volume whose entries encode their own index. -/
def sample_volume : ℕ → ℕ → ℕ → ℕ → ℕ → ℤ :=
  fun b d h w c => (b : ℤ) * 10000 + (d : ℤ) * 1000 + (h : ℤ) * 100 + (w : ℤ) * 10 + (c : ℤ)

/-- Witness for C1: the round trip holds at a concrete divisible shape
`(D,H,W) = (4,4,2)` with window `(2,2,1)` at index `(1,3,3,1,0)`. -/
theorem partition_reverse_witness :
    window_reverse (window_partition sample_volume 4 4 2 2 2 1) 4 4 2 2 2 1 1 3 3 1 0
      = sample_volume 1 3 3 1 0 :=
  partition_reverse_roundtrip sample_volume 4 4 2 2 2 1
    (by decide) (by decide) (by decide) (by decide) (by decide) (by decide)
    1 3 3 1 0 (by decide) (by decide) (by decide)

/-- Depth coordinate of the flattened in-window token index `t` of a window
with height `wh` and width `ww` (row-major flattening of `meshgrid`). -/
def coord_d (wh ww t : ℕ) : ℕ := t / ww / wh

/-- Height coordinate of the flattened in-window token index `t`. -/
def coord_h (wh ww t : ℕ) : ℕ := t / ww % wh

/-- Width coordinate of the flattened in-window token index `t`. -/
def coord_w (ww t : ℕ) : ℕ := t % ww

/-- The pairwise relative-position index table built in
`WindowAttention3D.__init__` for window `(wd, wh, ww)`: the coordinate
differences of tokens `i` and `j`, each axis shifted by `window_axis - 1`,
flattened by the mixed-radix encoding with radices
`(2*wh - 1, 2*ww - 1)` (the `*=` lines followed by `sum(-1)`). -/
def relative_position_index (wd wh ww : ℕ) (i j : ℕ) : ℤ :=
  ((coord_d wh ww i : ℤ) - (coord_d wh ww j : ℤ) + ((wd : ℤ) - 1))
      * ((2 * (wh : ℤ) - 1) * (2 * (ww : ℤ) - 1))
    + ((coord_h wh ww i : ℤ) - (coord_h wh ww j : ℤ) + ((wh : ℤ) - 1))
      * (2 * (ww : ℤ) - 1)
    + ((coord_w ww i : ℤ) - (coord_w ww j : ℤ) + ((ww : ℤ) - 1))

/-- The full-window linear position of the token with linear index `p` in the
smaller `(d, h, w)` window: slicing the 6-D reshaped index table
`relative_position_index.reshape(wd,wh,ww,wd,wh,ww)[:d,:h,:w,:d,:h,:w]` and
re-flattening addresses the full table at exactly this embedded index. -/
def embed_index (wh ww h w p : ℕ) : ℕ :=
  (coord_d h w p * wh + coord_h h w p) * ww + coord_w w p

/-- The sliced relative-position index used by `WindowAttention3D.forward`
when `resized_window_size = (d, h, w)` is given: the full `(wd, wh, ww)` table
restricted to the first `d`, `h`, `w` positions of each half. -/
def sliced_relative_position_index (wd wh ww d h w : ℕ) (p q : ℕ) : ℤ :=
  relative_position_index wd wh ww (embed_index wh ww h w p) (embed_index wh ww h w q)

/-- What the slice actually computes: the relative offset of the two small
window positions, but shifted by the FULL window's `window_axis - 1` and
encoded with the FULL window's radices `(2*wh - 1, 2*ww - 1)`. -/
def direct_full_encode (wd wh ww h w : ℕ) (p q : ℕ) : ℤ :=
  ((coord_d h w p : ℤ) - (coord_d h w q : ℤ) + ((wd : ℤ) - 1))
      * ((2 * (wh : ℤ) - 1) * (2 * (ww : ℤ) - 1))
    + ((coord_h h w p : ℤ) - (coord_h h w q : ℤ) + ((wh : ℤ) - 1))
      * (2 * (ww : ℤ) - 1)
    + ((coord_w w p : ℤ) - (coord_w w q : ℤ) + ((ww : ℤ) - 1))

/-- Coordinate recovery for the embedded index: width digit. -/
theorem embed_coord_w (wh ww h w p : ℕ) (hw0 : 0 < w) (hww : w ≤ ww) :
    coord_w ww (embed_index wh ww h w p) = coord_w w p := by
  have hb : coord_w w p < ww := lt_of_lt_of_le (Nat.mod_lt _ hw0) hww
  simp only [embed_index, coord_w]
  exact mixed_mod _ _ _ hb

/-- Coordinate recovery for the embedded index: the quotient by `ww`. -/
theorem embed_div_ww (wh ww h w p : ℕ) (hw0 : 0 < w) (hww : w ≤ ww) :
    embed_index wh ww h w p / ww = coord_d h w p * wh + coord_h h w p := by
  have hb : coord_w w p < ww := lt_of_lt_of_le (Nat.mod_lt _ hw0) hww
  simp only [embed_index]
  exact mixed_div _ _ _ hb

/-- Coordinate recovery for the embedded index: height digit. -/
theorem embed_coord_h (wh ww h w p : ℕ) (hh0 : 0 < h) (hhw : h ≤ wh)
    (hw0 : 0 < w) (hww : w ≤ ww) :
    coord_h wh ww (embed_index wh ww h w p) = coord_h h w p := by
  have hb : coord_h h w p < wh := lt_of_lt_of_le (Nat.mod_lt _ hh0) hhw
  simp only [coord_h, embed_div_ww wh ww h w p hw0 hww]
  exact mixed_mod _ _ _ hb

/-- Coordinate recovery for the embedded index: depth digit. -/
theorem embed_coord_d (wh ww h w p : ℕ) (hh0 : 0 < h) (hhw : h ≤ wh)
    (hw0 : 0 < w) (hww : w ≤ ww) :
    coord_d wh ww (embed_index wh ww h w p) = coord_d h w p := by
  have hb : coord_h h w p < wh := lt_of_lt_of_le (Nat.mod_lt _ hh0) hhw
  simp only [coord_d, embed_div_ww wh ww h w p hw0 hww]
  exact mixed_div _ _ _ hb

/-- C3 (amended): slicing the full-window table to a smaller window does NOT
reproduce the table built directly for the smaller window; it reproduces the
relative offsets of the smaller window's positions encoded with the FULL
window's shifts and radices.  In particular, for window `(8,7,7)` sliced to
`(4,7,7)` the sliced table equals the directly-built `(4,7,7)` table plus the
constant `(8-4)*13*13 = 676`. -/
theorem relative_index_slice_amended (wd wh ww d h w p q : ℕ)
    (hh0 : 0 < h) (hhw : h ≤ wh) (hw0 : 0 < w) (hww2 : w ≤ ww) :
    sliced_relative_position_index wd wh ww d h w p q
        = direct_full_encode wd wh ww h w p q
      ∧ sliced_relative_position_index 8 7 7 4 7 7 p q
        = relative_position_index 4 7 7 p q + 676 := by
  constructor
  · simp only [sliced_relative_position_index, relative_position_index,
      direct_full_encode,
      embed_coord_w wh ww h w _ hw0 hww2,
      embed_coord_h wh ww h w _ hh0 hhw hw0 hww2,
      embed_coord_d wh ww h w _ hh0 hhw hw0 hww2]
  · have h7 : (0:ℕ) < 7 := by decide
    have h77 : (7:ℕ) ≤ 7 := by decide
    simp only [sliced_relative_position_index, relative_position_index,
      direct_full_encode,
      embed_coord_w 7 7 7 7 _ h7 h77,
      embed_coord_h 7 7 7 7 _ h7 h77 h7 h77,
      embed_coord_d 7 7 7 7 _ h7 h77 h7 h77]
    push_cast
    ring

/-- C3 counterexample: the claim as stated is false.  For window `(8,7,7)`
sliced to `(4,7,7)`, the sliced table at the pair `(0,0)` holds `1267`, while
the table built directly for window `(4,7,7)` holds `591` there. -/
theorem relative_index_slice_counterexample :
    sliced_relative_position_index 8 7 7 4 7 7 0 0
      ≠ relative_position_index 4 7 7 0 0 := by
  decide

/-- Witness for C3 (amended) at window `(8,7,7)` sliced to `(4,7,7)`,
token pair `(0, 1)`. -/
theorem relative_index_slice_witness :
    sliced_relative_position_index 8 7 7 4 7 7 0 1
        = direct_full_encode 8 7 7 7 7 0 1
      ∧ sliced_relative_position_index 8 7 7 4 7 7 0 1
        = relative_position_index 4 7 7 0 1 + 676 :=
  relative_index_slice_amended 8 7 7 4 7 7 0 1
    (by decide) (by decide) (by decide) (by decide)

/-- C8 (amended): the relative-position index table is antisymmetric up to a
constant, but the constant is `(2*wd-1)*(2*wh-1)*(2*ww-1) - 1` (the bias-table
length minus one), not `windowVolume^2 - 1`:
`R[i,j] + R[j,i] = (2*wd-1)*(2*wh-1)*(2*ww-1) - 1` for all `i, j`. -/
theorem relative_index_antisym_amended (wd wh ww i j : ℕ) :
    relative_position_index wd wh ww i j + relative_position_index wd wh ww j i
      = (2 * (wd : ℤ) - 1) * ((2 * (wh : ℤ) - 1) * (2 * (ww : ℤ) - 1)) - 1 := by
  simp only [relative_position_index]
  ring

/-- C8 counterexample: for window `(2,1,1)` (volume 2) the sum
`R[0,1] + R[1,0] = 2`, while `windowVolume^2 - 1 = 3`. -/
theorem relative_index_antisym_counterexample :
    relative_position_index 2 1 1 0 1 + relative_position_index 2 1 1 1 0
      ≠ ((2 * 1 * 1 : ℤ)) ^ 2 - 1 := by
  decide

/-- The pairwise fragment-coordinate difference tensor produced by
`global_position_index`: `window_coords[:, None, :] - window_coords[:, :, None]`,
so entry `[i, j, k]` is `coords[j][k] - coords[i][k]` (one window; the window
axis is irrelevant to the per-pair property). -/
def relative_fragment_coords (window_coords : ℕ → ℕ → ℤ) (i j k : ℕ) : ℤ :=
  window_coords j k - window_coords i k

/-- The gate computed in `WindowAttention3D.forward` from the fragment tensor:
`fgate = fmask.abs().sum(-1)`, the sum of absolute differences over the three
fragment coordinates. -/
def fgate (fmask : ℕ → ℕ → ℕ → ℤ) (i j : ℕ) : ℤ :=
  |fmask i j 0| + |fmask i j 1| + |fmask i j 2|

/-- The bias actually added to an attention score in
`WindowAttention3D.forward` when a fragment bias table exists:
`relative_position_bias * fgate + fragment_position_bias * (1 - fgate)`. -/
def add_blended_bias (attn fine coarse gate : ℤ) : ℤ :=
  attn + (fine * gate + coarse * (1 - gate))

/-- C2 (amended): the gate is NOT the indicator `1 = same fragment /
0 = different`; it is the raw sum of absolute pairwise fragment-coordinate
differences, which is `0` exactly when the two tokens share all three coarse
fragment coordinates (and `≥ 1` otherwise), and the bias added to the
attention score is `fine * gate + coarse * (1 - gate)` with this gate —
so same-fragment pairs receive exactly the coarse bias. -/
theorem fragment_gate_blend_amended (wc : ℕ → ℕ → ℤ) (i j : ℕ)
    (attn fine coarse : ℤ) :
    (fgate (relative_fragment_coords wc) i j = 0
        ↔ (wc j 0 = wc i 0 ∧ wc j 1 = wc i 1 ∧ wc j 2 = wc i 2))
      ∧ (fgate (relative_fragment_coords wc) i j ≠ 0
          → 1 ≤ fgate (relative_fragment_coords wc) i j)
      ∧ (fgate (relative_fragment_coords wc) i j = 0
          → add_blended_bias attn fine coarse (fgate (relative_fragment_coords wc) i j)
              = attn + coarse) := by
  have hA := abs_nonneg (wc j 0 - wc i 0)
  have hB := abs_nonneg (wc j 1 - wc i 1)
  have hC := abs_nonneg (wc j 2 - wc i 2)
  refine ⟨⟨fun hsum => ?_, fun hshare => ?_⟩, fun hne => ?_, fun hz => ?_⟩
  · simp only [fgate, relative_fragment_coords] at hsum
    exact ⟨sub_eq_zero.mp (abs_eq_zero.mp (by omega)),
           sub_eq_zero.mp (abs_eq_zero.mp (by omega)),
           sub_eq_zero.mp (abs_eq_zero.mp (by omega))⟩
  · obtain ⟨e0, e1, e2⟩ := hshare
    simp [fgate, relative_fragment_coords, e0, e1, e2]
  · simp only [fgate, relative_fragment_coords] at hne ⊢
    rcases (abs_nonneg (wc j 0 - wc i 0)).lt_or_eq with hlt | heq
    · omega
    · rcases (abs_nonneg (wc j 1 - wc i 1)).lt_or_eq with hlt1 | heq1
      · omega
      · rcases (abs_nonneg (wc j 2 - wc i 2)).lt_or_eq with hlt2 | heq2
        · omega
        · omega
  · rw [hz]
    simp [add_blended_bias]

/-- Fragment coordinates with every token in the same coarse fragment. -/
def shared_fragment_coords : ℕ → ℕ → ℤ := fun _ _ => 0

/-- C2 counterexample: tokens `0` and `1` share their coarse fragment (all
three fragment coordinates agree), yet the gate computed by the code is `0`,
not `1` as the claim states. -/
theorem fragment_gate_counterexample :
    shared_fragment_coords 0 0 = shared_fragment_coords 1 0
      ∧ shared_fragment_coords 0 1 = shared_fragment_coords 1 1
      ∧ shared_fragment_coords 0 2 = shared_fragment_coords 1 2
      ∧ fgate (relative_fragment_coords shared_fragment_coords) 0 1 ≠ 1 := by
  refine ⟨rfl, rfl, rfl, ?_⟩
  decide

/-- Witness for C2 (amended): for a same-fragment pair the score receives
exactly the coarse bias (`2 + 7`), not the fine one. -/
theorem fragment_gate_witness :
    add_blended_bias 2 5 7 (fgate (relative_fragment_coords shared_fragment_coords) 0 1)
      = 2 + 7 :=
  (fragment_gate_blend_amended shared_fragment_coords 0 1 2 5 7).2.2 (by decide)

/-- `get_window_size(x_size, window_size, shift_size)` from the source,
specialized to the 3-tuples used at every call site: any axis whose input
extent is `≤` the configured window extent gets its window replaced by the
input extent and its shift zeroed. -/
def get_window_size (x_size window_size : ℕ × ℕ × ℕ)
    (shift_size : Option (ℕ × ℕ × ℕ)) :
    (ℕ × ℕ × ℕ) × Option (ℕ × ℕ × ℕ) :=
  ((if x_size.1 ≤ window_size.1 then x_size.1 else window_size.1,
    if x_size.2.1 ≤ window_size.2.1 then x_size.2.1 else window_size.2.1,
    if x_size.2.2 ≤ window_size.2.2 then x_size.2.2 else window_size.2.2),
   match shift_size with
   | none => none
   | some s => some
      (if x_size.1 ≤ window_size.1 then 0 else s.1,
       if x_size.2.1 ≤ window_size.2.1 then 0 else s.2.1,
       if x_size.2.2 ≤ window_size.2.2 then 0 else s.2.2))

/-- C4: on every axis with input extent `≤` configured window extent,
`get_window_size` returns that axis's window equal to the input extent and the
shift forced to 0; on every other axis the configured window and shift are
returned unchanged. -/
theorem get_window_size_reduction (x w s w' s' : ℕ × ℕ × ℕ)
    (hres : get_window_size x w (some s) = (w', some s')) :
    ((x.1 ≤ w.1 → w'.1 = x.1 ∧ s'.1 = 0)
      ∧ (w.1 < x.1 → w'.1 = w.1 ∧ s'.1 = s.1))
    ∧ ((x.2.1 ≤ w.2.1 → w'.2.1 = x.2.1 ∧ s'.2.1 = 0)
      ∧ (w.2.1 < x.2.1 → w'.2.1 = w.2.1 ∧ s'.2.1 = s.2.1))
    ∧ ((x.2.2 ≤ w.2.2 → w'.2.2 = x.2.2 ∧ s'.2.2 = 0)
      ∧ (w.2.2 < x.2.2 → w'.2.2 = w.2.2 ∧ s'.2.2 = s.2.2)) := by
  simp only [get_window_size, Prod.mk.injEq, Option.some.injEq] at hres
  obtain ⟨hw', hs'⟩ := hres
  subst hw' hs'
  refine ⟨⟨fun hle1 => ?_, fun hgt1 => ?_⟩,
    ⟨fun hle2 => ?_, fun hgt2 => ?_⟩,
    ⟨fun hle3 => ?_, fun hgt3 => ?_⟩⟩
  · simp [hle1]
  · simp [Nat.not_le.mpr hgt1]
  · simp [hle2]
  · simp [Nat.not_le.mpr hgt2]
  · simp [hle3]
  · simp [Nat.not_le.mpr hgt3]

/-- Witness for C4: with `x_size = (4,50,60)`, `window = (8,7,7)`,
`shift = (4,3,3)`, the first axis is reduced to 4 with shift 0 and the others
are untouched. -/
theorem get_window_size_reduction_witness :
    (((4:ℕ), (7:ℕ), (7:ℕ)).1 = 4 ∧ ((0:ℕ), (3:ℕ), (3:ℕ)).1 = 0)
      ∧ (((4:ℕ), (7:ℕ), (7:ℕ)).2.1 = 7 ∧ ((0:ℕ), (3:ℕ), (3:ℕ)).2.1 = 3) :=
  ⟨(get_window_size_reduction (4,50,60) (8,7,7) (4,3,3) (4,7,7) (0,3,3)
      (by decide)).1.1 (by decide),
   (get_window_size_reduction (4,50,60) (8,7,7) (4,3,3) (4,7,7) (0,3,3)
      (by decide)).2.1.2 (by decide)⟩

/-- `get_adaptive_window_size(base_window_size, input_x_size, base_x_size)`
from the source: per-axis `(base_window_axis * current_axis) // reference_axis`
with Python floor division on non-negative sizes. -/
def get_adaptive_window_size (base_window_size input_x_size base_x_size : ℕ × ℕ × ℕ) :
    ℕ × ℕ × ℕ :=
  ((base_window_size.1 * input_x_size.1) / base_x_size.1,
   (base_window_size.2.1 * input_x_size.2.1) / base_x_size.2.1,
   (base_window_size.2.2 * input_x_size.2.2) / base_x_size.2.2)

/-- C5: `get_adaptive_window_size` computes per-axis floor division
`(base_window_axis * current_axis) / reference_axis`; in particular
`get_adaptive_window_size((8,7,7), (16,112,112), (32,224,224)) = (4,3,3)`. -/
theorem adaptive_window_arithmetic :
    get_adaptive_window_size (8, 7, 7) (16, 112, 112) (32, 224, 224) = (4, 3, 3)
      ∧ ∀ bw ix bx : ℕ × ℕ × ℕ,
          get_adaptive_window_size bw ix bx
            = ((bw.1 * ix.1) / bx.1, (bw.2.1 * ix.2.1) / bx.2.1,
               (bw.2.2 * ix.2.2) / bx.2.2) :=
  ⟨by decide, fun _ _ _ => rfl⟩

/-- `torch.utils.checkpoint.checkpoint(f, x)`: recomputes activations in the
backward pass but is functionally plain application. -/
def checkpoint_apply {α : Type} (f : α → α) (x : α) : α := f x

/-- `SwinTransformerBlock3D.forward`: phase 1 (attention) guarded by
`jump_attention`, each phase under an optional checkpoint, each wrapped in a
residual add.  `forward_part1` stands for the norm/pad/roll/partition/attend/
reverse pipeline; `forward_part2 = drop_path ∘ mlp ∘ norm2`. -/
def swin_block_forward {α : Type} [Add α] (jump_attention use_checkpoint : Bool)
    (forward_part1 norm2 mlp drop_path : α → α) (x : α) : α :=
  let shortcut := x
  let x1 := if jump_attention then x
    else shortcut + drop_path
      (if use_checkpoint then checkpoint_apply forward_part1 x else forward_part1 x)
  if use_checkpoint then
    x1 + checkpoint_apply (fun y => drop_path (mlp (norm2 y))) x1
  else
    x1 + drop_path (mlp (norm2 x1))

/-- C7: with `jump_attention` enabled the block returns exactly
`x + drop_path(mlp(norm2(x)))` — the attention phase is skipped entirely and
only the MLP residual phase runs, with or without checkpointing. -/
theorem jump_attention_skip {α : Type} [Add α] (use_checkpoint : Bool)
    (forward_part1 norm2 mlp drop_path : α → α) (x : α) :
    swin_block_forward true use_checkpoint forward_part1 norm2 mlp drop_path x
      = x + drop_path (mlp (norm2 x)) := by
  cases use_checkpoint <;> rfl

/-- The padding amounts computed in `SwinTransformerBlock3D.forward_part1`:
`pad_d1 = (wd - D % wd) % wd` and likewise for `H`, `W`.  In Python a zero
window axis makes the modulus raise `ZeroDivisionError`, modelled as `none`;
no call-site guards against it. -/
def pad_amounts (window_size : ℕ × ℕ × ℕ) (D H W : ℕ) : Option (ℕ × ℕ × ℕ) :=
  if window_size.1 = 0 ∨ window_size.2.1 = 0 ∨ window_size.2.2 = 0 then none
  else some
    ((window_size.1 - D % window_size.1) % window_size.1,
     (window_size.2.1 - H % window_size.2.1) % window_size.2.1,
     (window_size.2.2 - W % window_size.2.2) % window_size.2.2)

/-- C10: `get_adaptive_window_size` enforces no lower bound — whenever
`base_window_axis * current_axis < reference_axis` it returns 0 on that axis
(concretely, base `(8,7,7)` at input `(2,7,7)` vs reference `(32,224,224)`
gives `(0,0,0)`); `get_window_size` passes a zero window through unchanged
(`x_size[i] ≤ 0` never holds for a real extent), and the block's padding then
takes a modulus by zero, which nothing guards. -/
theorem adaptive_window_zero_unguarded (bw ix bx : ℕ × ℕ × ℕ)
    (h : bw.1 * ix.1 < bx.1) :
    (get_adaptive_window_size bw ix bx).1 = 0
      ∧ get_adaptive_window_size (8, 7, 7) (2, 7, 7) (32, 224, 224) = (0, 0, 0)
      ∧ get_window_size (16, 56, 56) (0, 0, 0) (some (0, 0, 0))
          = ((0, 0, 0), some (0, 0, 0))
      ∧ pad_amounts (0, 0, 0) 16 56 56 = none :=
  ⟨Nat.div_eq_of_lt h, by decide, by decide, by decide⟩

/-- Witness for C10 at the concrete shapes of the claim. -/
theorem adaptive_window_zero_witness :
    (get_adaptive_window_size (8, 7, 7) (2, 7, 7) (32, 224, 224)).1 = 0
      ∧ pad_amounts (0, 0, 0) 16 56 56 = none :=
  ⟨(adaptive_window_zero_unguarded (8, 7, 7) (2, 7, 7) (32, 224, 224) (by decide)).1,
   (adaptive_window_zero_unguarded (8, 7, 7) (2, 7, 7) (32, 224, 224) (by decide)).2.2.2⟩

/-- The position a Python negative slice bound `-k` denotes on an axis of
extent `E`: `-0` is `0` (whole-axis start / empty stop) and `-k` is `E - k`
clamped at `0`. -/
def py_neg_bound (E k : ℕ) : ℕ := if k = 0 then 0 else E - k

/-- The per-axis slice index a position ends up with in `compute_mask`'s
region labelling.  The three slices per axis are written in the order
`slice(-win)`, `slice(-win, -shift)`, `slice(-shift, None)` and later
assignments overwrite earlier ones, so a position's label is the largest
slice index containing it: 2 on `[py_neg_bound E shift, E)` (the whole axis
when `shift = 0`), else 1 on `[py_neg_bound E win, py_neg_bound E shift)`,
else 0. -/
def axis_region (E win shift pos : ℕ) : ℕ :=
  if py_neg_bound E shift ≤ pos then 2
  else if py_neg_bound E win ≤ pos then 1
  else 0

/-- The region id `cnt` written into `img_mask` at voxel `(d, h, w)`:
assignments iterate depth-major, so `cnt = 9*slice_d + 3*slice_h + slice_w`
for the last covering slice triple. -/
def region_id (D H W wd wh ww sd sh sw d h w : ℕ) : ℕ :=
  9 * axis_region D wd sd d + 3 * axis_region H wh sh h + axis_region W ww sw w

/-- `mask_windows` from `compute_mask`: the window partition of the region-id
volume `img_mask` (batch 1, channel 1), squeezed to `(nW, wd*wh*ww)`. -/
def mask_windows (D H W wd wh ww sd sh sw : ℕ) (n t : ℕ) : ℤ :=
  window_partition
    (fun _ d h w _ => (region_id D H W wd wh ww sd sh sw d h w : ℤ))
    D H W wd wh ww n t 0

/-- `compute_mask` from the source: the additive attention mask
`attn_mask[n, i, j]`, obtained from `mask_windows.unsqueeze(1) -
mask_windows.unsqueeze(2)` with nonzero entries filled with `-100` and zero
entries with `0`. -/
def compute_mask (D H W wd wh ww sd sh sw : ℕ) (n i j : ℕ) : ℤ :=
  if mask_windows D H W wd wh ww sd sh sw n j
      - mask_windows D H W wd wh ww sd sh sw n i ≠ 0
  then -100 else 0

/-- C6: for every padded shape, window size and shift size, the additive
attention mask is symmetric in the token pair, every entry is exactly `0` or
exactly `-100`, and an entry is `-100` exactly when the two tokens' region
ids differ. -/
theorem compute_mask_props (D H W wd wh ww sd sh sw n i j : ℕ) :
    compute_mask D H W wd wh ww sd sh sw n i j
        = compute_mask D H W wd wh ww sd sh sw n j i
      ∧ (compute_mask D H W wd wh ww sd sh sw n i j = 0
          ∨ compute_mask D H W wd wh ww sd sh sw n i j = -100)
      ∧ (compute_mask D H W wd wh ww sd sh sw n i j = -100
          ↔ mask_windows D H W wd wh ww sd sh sw n i
              ≠ mask_windows D H W wd wh ww sd sh sw n j) := by
  by_cases hij : mask_windows D H W wd wh ww sd sh sw n i
      = mask_windows D H W wd wh ww sd sh sw n j
  · simp [compute_mask, hij]
  · have h1 : mask_windows D H W wd wh ww sd sh sw n j
        - mask_windows D H W wd wh ww sd sh sw n i ≠ 0 :=
      sub_ne_zero.mpr (Ne.symm hij)
    have h2 : mask_windows D H W wd wh ww sd sh sw n i
        - mask_windows D H W wd wh ww sd sh sw n j ≠ 0 :=
      sub_ne_zero.mpr hij
    simp [compute_mask, h1, h2, hij]

/-- Witness for C6: symmetry at a concrete shifted-window configuration,
shape `(4,14,14)`, window `(2,7,7)`, shift `(1,3,3)`. -/
theorem compute_mask_props_witness :
    compute_mask 4 14 14 2 7 7 1 3 3 0 0 1 = compute_mask 4 14 14 2 7 7 1 3 3 0 1 0 :=
  (compute_mask_props 4 14 14 2 7 7 1 3 3 0 0 1).1

/-- Whether `pat` matches an initial run of `s` (both as character lists). -/
def lead_eq (pat s : List Char) : Bool :=
  match pat, s with
  | [], _ => true
  | _, [] => false
  | c :: ps, e :: ss => c = e && lead_eq ps ss

/-- Whether `pat` occurs as a contiguous run somewhere in `s`
(Python's `pat in s`). -/
def has_sub_list (pat : List Char) : List Char → Bool
  | [] => lead_eq pat []
  | c :: rest => lead_eq pat (c :: rest) || has_sub_list pat rest

/-- Python's `pat in key` on strings. -/
def str_has_sub (s pat : String) : Bool := has_sub_list pat.toList s.toList

/-- Fuel-driven worker for `replace_list` (fuel bounds the number of
characters still to scan, so the recursion is structural and computable). -/
def replace_go (pat rep : List Char) : ℕ → List Char → List Char
  | _, [] => []
  | 0, l => l
  | Nat.succ fuel, c :: rest =>
    if pat ≠ [] ∧ lead_eq pat (c :: rest) = true then
      rep ++ replace_go pat rep fuel (rest.drop (pat.length - 1))
    else
      c :: replace_go pat rep fuel rest

/-- Python's `str.replace`: replace every non-overlapping occurrence of `pat`
left to right (`pat` is always a non-empty literal at the call site; an empty
`pat` is returned unchanged). -/
def replace_list (pat rep s : List Char) : List Char :=
  replace_go pat rep s.length s

/-- `str.replace` lifted to `String`. -/
def str_replace (s pat rep : String) : String :=
  String.mk (replace_list pat.toList rep.toList s.toList)

/-- Python's `key[n:]` for the ASCII keys of a state dict. -/
def str_drop (s : String) (n : ℕ) : String := String.mk (s.toList.drop n)

/-- Decimal digit value of a character. -/
def digit_val (c : Char) : Option ℕ :=
  if c = '0' then some 0 else if c = '1' then some 1 else if c = '2' then some 2
  else if c = '3' then some 3 else if c = '4' then some 4 else if c = '5' then some 5
  else if c = '6' then some 6 else if c = '7' then some 7 else if c = '8' then some 8
  else if c = '9' then some 9 else none

/-- Accumulating decimal parse. -/
def parse_nat_aux (acc : ℕ) : List Char → Option ℕ
  | [] => some acc
  | c :: rest =>
    match digit_val c with
    | some d => parse_nat_aux (acc * 10 + d) rest
    | none => none

/-- Python's `int(s)` for the non-negative layer indices appearing in state
dict keys (`none` models the `ValueError` on anything else). -/
def parse_nat (s : String) : Option ℕ :=
  match s.toList with
  | [] => none
  | cs => parse_nat_aux 0 cs

/-- Python's `key.split(".")`. -/
def split_dots (s : String) : List String :=
  (List.splitOn '.' s.toList).map String.mk

/-- A checkpoint tensor: its shape plus an abstract content identifier
(contents are only moved around, never inspected, by `load_swin`). -/
structure PTensor where
  shape : List ℕ
  val : ℤ
deriving DecidableEq

/-- A state dict: an ordered association list from dotted parameter names to
tensors (Python `OrderedDict` — first occurrence wins on lookup, assignment
updates in place or appends). -/
abbrev StateDict := List (String × PTensor)

/-- `d[k]` lookup. -/
def dict_get : StateDict → String → Option PTensor
  | [], _ => none
  | kv :: rest, k => if kv.1 = k then some kv.2 else dict_get rest k

/-- `d[k] = v` assignment (update in place, else append). -/
def dict_set : StateDict → String → PTensor → StateDict
  | [], k, v => [(k, v)]
  | kv :: rest, k, v => if kv.1 = k then (k, v) :: rest else kv :: dict_set rest k v

/-- `d.pop(k)`. -/
def dict_pop : StateDict → String → StateDict
  | [], _ => []
  | kv :: rest, k => if kv.1 = k then rest else kv :: dict_pop rest k

/-- The backbone's `window_size` attribute: a single 3-tuple or one per
stage (`isinstance(self.window_size, list)` branches on this). -/
inductive WindowSpec where
  | single (ws : ℕ × ℕ × ℕ)
  | perLayer (ws : List (ℕ × ℕ × ℕ))

/-- First half of `load_swin`: build `clean_dict` from the loaded
`state_dict` — keep keys containing `"backbone"` with the 9-character prefix
`"backbone."` stripped, and duplicate each `relative_position_bias_table` key
into a `fragment_position_bias_table` key holding the same tensor (unless that
key already exists). -/
def clean_step (acc : StateDict) (kv : String × PTensor) : StateDict :=
  if str_has_sub kv.1 "backbone" then
    let cleanKey := str_drop kv.1 9
    let acc1 := dict_set acc cleanKey kv.2
    if str_has_sub cleanKey "relative_position_bias_table" then
      let forkedKey :=
        str_replace cleanKey "relative_position_bias_table" "fragment_position_bias_table"
      if (dict_get acc1 forkedKey).isSome then acc1
      else dict_set acc1 forkedKey kv.2
    else acc1
  else acc

/-- Fold of `clean_step` over the checkpoint entries in order. -/
def build_clean_dict (stateDict : StateDict) : StateDict :=
  stateDict.foldl clean_step []

/-- `int(k.split(".")[1])`: the stage index encoded in a bias-table key. -/
def layer_index (k : String) : Except String ℕ :=
  match (split_dots k).get? 1 with
  | none => Except.error "IndexError: split"
  | some s =>
    match parse_nat s with
    | none => Except.error "ValueError: int()"
    | some n => Except.ok n

/-- The `L2` recomputed inside the bias-table loop from the configured window
size: `(2*ws[1]-1) * (2*ws[2]-1)`, taking the per-stage tuple
`window_size[int(k.split(".")[1])]` when `window_size` is a list. -/
def window_L2 (ws : WindowSpec) (k : String) : Except String ℕ :=
  match ws with
  | WindowSpec.perLayer l =>
    (match layer_index k with
     | Except.error e => Except.error e
     | Except.ok i =>
       match l.get? i with
       | some wtup => Except.ok ((2 * wtup.2.1 - 1) * (2 * wtup.2.2 - 1))
       | none => Except.error "IndexError: window_size")
  | WindowSpec.single wtup => Except.ok ((2 * wtup.2.1 - 1) * (2 * wtup.2.2 - 1))

/-- One iteration of `load_swin`'s bias-table loop for key `k`.  When the
head counts differ the pretrained tensor is written back unchanged (the key
is skipped with a log line); when the lengths differ the resize path runs —
it reads `self.window_size[i_layer]`, which for a plain-tuple `window_size`
is an unbound name (`NameError`), and for a per-stage list produces a tensor
reshaped to `(nH2, 15, L2)` whose contents we keep abstract via
`resize_val`. -/
def bias_key_step (ws : WindowSpec) (resize_val : PTensor → ℕ → ℕ → ℤ)
    (modelState : StateDict) (cd : StateDict) (k : String) :
    Except String StateDict :=
  match dict_get cd k with
  | none => Except.error "KeyError: clean_dict"
  | some pretrained =>
    match dict_get modelState k with
    | none => Except.error "KeyError: model_state_dict"
    | some current =>
      match pretrained.shape with
      | [L1, nH1] =>
        (match current.shape with
         | [_, nH2] =>
           (match window_L2 ws k with
            | Except.error e => Except.error e
            | Except.ok L2 =>
              if nH1 = nH2 then
                if L1 = L2 then Except.ok (dict_set cd k pretrained)
                else
                  match ws with
                  | WindowSpec.single _ => Except.error "NameError: i_layer"
                  | WindowSpec.perLayer _ =>
                    Except.ok (dict_set cd k
                      ⟨[nH2, 15, L2], resize_val pretrained nH2 L2⟩)
              else Except.ok (dict_set cd k pretrained))
         | _ => Except.error "ValueError: shape unpack")
      | _ => Except.error "ValueError: shape unpack"

/-- `load_swin`'s "Clean Mismatched Keys" pass: drop from `clean_dict` every
key whose tensor shape disagrees with the live parameter of the same name. -/
def clean_mismatched (modelState : StateDict) (cd : StateDict) : StateDict :=
  modelState.foldl
    (fun acc kv =>
      match dict_get acc kv.1 with
      | some wv => if kv.2.shape = wv.shape then acc else dict_pop acc kv.1
      | none => acc)
    cd

/-- `self.load_state_dict(clean_dict, strict=False)`: overwrite every live
parameter whose key appears in `clean_dict`; with `strict=False` missing and
unexpected keys are ignored but a shape mismatch still raises. -/
def load_state_dict_nonstrict (cd : StateDict) : StateDict → Except String StateDict
  | [] => Except.ok []
  | kv :: rest =>
    match dict_get cd kv.1 with
    | some wv =>
      if wv.shape = kv.2.shape then
        (match load_state_dict_nonstrict cd rest with
         | Except.error e => Except.error e
         | Except.ok out => Except.ok ((kv.1, wv) :: out))
      else Except.error "RuntimeError: size mismatch"
    | none =>
      match load_state_dict_nonstrict cd rest with
      | Except.error e => Except.error e
      | Except.ok out => Except.ok (kv :: out)

/-- The bias-table loop of `load_swin`: fold `bias_key_step` over the bias
keys, short-circuiting on a raised exception. -/
def bias_fold (ws : WindowSpec) (resize_val : PTensor → ℕ → ℕ → ℤ)
    (modelState : StateDict) : StateDict → List String → Except String StateDict
  | cd, [] => Except.ok cd
  | cd, k :: rest =>
    match bias_key_step ws resize_val modelState cd k with
    | Except.error e => Except.error e
    | Except.ok cd2 => bias_fold ws resize_val modelState cd2 rest

/-- `SwinTransformer3D.load_swin(load_path, strict=False)`: strip/fork keys,
run the bias-table loop over the keys of `clean_dict` containing
`relative_position_bias_table`, drop shape-mismatched keys, then load
non-strictly into the live state. -/
def load_swin (ws : WindowSpec) (resize_val : PTensor → ℕ → ℕ → ℤ)
    (modelState stateDict : StateDict) : Except String StateDict :=
  match bias_fold ws resize_val modelState (build_clean_dict stateDict)
      (((build_clean_dict stateDict).map (fun kv => kv.1)).filter
        (fun k => str_has_sub k "relative_position_bias_table")) with
  | Except.error e => Except.error e
  | Except.ok cd2 => load_state_dict_nonstrict (clean_mismatched modelState cd2) modelState

/-- C9: loading a same-architecture checkpoint through `load_swin` where one
`relative_position_bias_table` key carries a head count `nH'` different from
the live model's `nH` completes without raising: the bias loop skips that key
(`nH1 != nH2` prints and passes), the mismatch-cleaning pass then drops it
(and its forked fragment copy), so the live parameter keeps its initialized
value, while every other compatible key — the other bias table, its forked
fragment copy, and the patch-embed weight — is loaded from the checkpoint.
The architecture modelled (window `(1,7,7)`, bias length `169 = 13*13`) is
one whose table length equals the loop's recomputed `L2`, so the resize
branch stays idle. -/
theorem load_swin_head_mismatch (nH nH' : ℕ) (h : nH' ≠ nH)
    (a0 af0 b0 bf0 p0 a1 b1 p1 : ℤ) (rv : PTensor → ℕ → ℕ → ℤ) :
    load_swin (WindowSpec.single (1,7,7)) rv
      [("layers.0.blocks.0.attn.relative_position_bias_table", ⟨[169,nH],a0⟩),
       ("layers.0.blocks.0.attn.fragment_position_bias_table", ⟨[169,nH],af0⟩),
       ("layers.1.blocks.0.attn.relative_position_bias_table", ⟨[169,nH],b0⟩),
       ("layers.1.blocks.0.attn.fragment_position_bias_table", ⟨[169,nH],bf0⟩),
       ("patch_embed.proj.weight", ⟨[96,3,2,4,4],p0⟩)]
      [("backbone.layers.0.blocks.0.attn.relative_position_bias_table", ⟨[169,nH'],a1⟩),
       ("backbone.layers.1.blocks.0.attn.relative_position_bias_table", ⟨[169,nH],b1⟩),
       ("backbone.patch_embed.proj.weight", ⟨[96,3,2,4,4],p1⟩)]
    = Except.ok
      [("layers.0.blocks.0.attn.relative_position_bias_table", ⟨[169,nH],a0⟩),
       ("layers.0.blocks.0.attn.fragment_position_bias_table", ⟨[169,nH],af0⟩),
       ("layers.1.blocks.0.attn.relative_position_bias_table", ⟨[169,nH],b1⟩),
       ("layers.1.blocks.0.attn.fragment_position_bias_table", ⟨[169,nH],b1⟩),
       ("patch_embed.proj.weight", ⟨[96,3,2,4,4],p1⟩)] := by
  simp [load_swin, build_clean_dict, clean_step, dict_set, dict_get, dict_pop,
    str_has_sub, has_sub_list, lead_eq, str_drop, str_replace, replace_list, replace_go,
    bias_fold, bias_key_step, window_L2, clean_mismatched, load_state_dict_nonstrict,
    h, Ne.symm h]

/-- Resize contents placeholder for the C9 witness (never reached on the
skip path). -/
def zero_resize : PTensor → ℕ → ℕ → ℤ := fun _ _ _ => 0

/-- Witness for C9 at concrete head counts `nH = 3` (live) vs `nH' = 4`
(checkpoint) and concrete tensor contents. -/
theorem load_swin_head_mismatch_witness :
    load_swin (WindowSpec.single (1,7,7)) zero_resize
      [("layers.0.blocks.0.attn.relative_position_bias_table", ⟨[169,3],10⟩),
       ("layers.0.blocks.0.attn.fragment_position_bias_table", ⟨[169,3],11⟩),
       ("layers.1.blocks.0.attn.relative_position_bias_table", ⟨[169,3],12⟩),
       ("layers.1.blocks.0.attn.fragment_position_bias_table", ⟨[169,3],13⟩),
       ("patch_embed.proj.weight", ⟨[96,3,2,4,4],14⟩)]
      [("backbone.layers.0.blocks.0.attn.relative_position_bias_table", ⟨[169,4],20⟩),
       ("backbone.layers.1.blocks.0.attn.relative_position_bias_table", ⟨[169,3],21⟩),
       ("backbone.patch_embed.proj.weight", ⟨[96,3,2,4,4],22⟩)]
    = Except.ok
      [("layers.0.blocks.0.attn.relative_position_bias_table", ⟨[169,3],10⟩),
       ("layers.0.blocks.0.attn.fragment_position_bias_table", ⟨[169,3],11⟩),
       ("layers.1.blocks.0.attn.relative_position_bias_table", ⟨[169,3],21⟩),
       ("layers.1.blocks.0.attn.fragment_position_bias_table", ⟨[169,3],21⟩),
       ("patch_embed.proj.weight", ⟨[96,3,2,4,4],22⟩)] :=
  load_swin_head_mismatch 3 4 (by decide) 10 11 12 13 14 20 21 22 zero_resize

/-- Witness for C7 at concrete integer-valued components. -/
theorem jump_attention_skip_witness :
    swin_block_forward true true (fun y : ℤ => y * 3) (fun y => y + 1)
        (fun y => y * y) (fun y => y - 2) 4
      = 4 + ((4 + 1) * (4 + 1) - 2) :=
  jump_attention_skip true (fun y : ℤ => y * 3) (fun y => y + 1)
    (fun y => y * y) (fun y => y - 2) 4
